import Mathlib

/-!
Verification of the MIT garden-monitoring backend (Python sources under
`Backend/`).  Each section shallowly embeds the part of the source that a
claim is about — numbers become `ℚ` (or `ℝ` where the source takes square
roots), Python dicts keyed by strings become association lists, and the
implicit ambient state read by a function (Firestore soil context, the
fetched forecast, the cooldown maps) becomes an explicit argument.
-/

/- ================================================================
   Alert deduplication / dispatch gate
   (Backend/automatic_monitoring.py, `check_soil_conditions` lines
   105-119 and 235-251, `check_weather_conditions` lines 267-282)
   ================================================================ -/

/-- Result of offering one alert to the dispatch gate: `sent` means the
alert was forwarded to the notification channel, `suppressed` means it was
skipped as a recent duplicate. -/
inductive DispatchResult where
  | sent
  | suppressed
deriving DecidableEq, Repr

/-- The cooldown map `last_soil_alert` / `last_weather_alert`: a Python dict
from alert key (string `f"{email}_{alert['type']}"`) to the last-sent time,
modelled as an association list read through `List.lookup` (first entry for
a key wins, so dict assignment is modelled by prepending). Times are
integers standing for seconds (`total_seconds()` of the datetime
differences in the source). -/
abbrev CooldownState := List (String × ℤ)

/-- The dispatch gate pattern shared by the three dispatch sites of
`automatic_monitoring.py`: send iff no timestamp is recorded for the key or
`now - last_sent > window`, recording `now` on a send (the spec's §4.4
`offer` operation, with the domain window as a parameter). -/
def offer (s : CooldownState) (key : String) (now window : ℤ) :
    DispatchResult × CooldownState :=
  match s.lookup key with
  | none => (.sent, (key, now) :: s)
  | some last_sent =>
      if now - last_sent > window then (.sent, (key, now) :: s)
      else (.suppressed, s)

/-- One step of the soil dispatch loop on the live (Firestore) path,
`automatic_monitoring.py` lines 239-251: window literal 3600 seconds. -/
def soil_dispatch_live (s : CooldownState) (email atype : String) (now : ℤ) :
    DispatchResult × CooldownState :=
  let alert_key := email ++ "_" ++ atype
  match s.lookup alert_key with
  | none => (.sent, (alert_key, now) :: s)
  | some last_sent =>
      if now - last_sent > 3600 then (.sent, (alert_key, now) :: s)
      else (.suppressed, s)

/-- One step of the soil dispatch loop on the testing path taken when no
Firestore client is available, `automatic_monitoring.py` lines 108-119:
window literal 300 seconds ("5 min for testing"). -/
def soil_dispatch_test (s : CooldownState) (email atype : String) (now : ℤ) :
    DispatchResult × CooldownState :=
  let alert_key := email ++ "_" ++ atype
  match s.lookup alert_key with
  | none => (.sent, (alert_key, now) :: s)
  | some last_sent =>
      if now - last_sent > 300 then (.sent, (alert_key, now) :: s)
      else (.suppressed, s)

/-- One step of the weather dispatch loop, `automatic_monitoring.py` lines
269-282: window literal 7200 seconds. -/
def weather_dispatch (s : CooldownState) (email atype : String) (now : ℤ) :
    DispatchResult × CooldownState :=
  let alert_key := email ++ "_" ++ atype
  match s.lookup alert_key with
  | none => (.sent, (alert_key, now) :: s)
  | some last_sent =>
      if now - last_sent > 7200 then (.sent, (alert_key, now) :: s)
      else (.suppressed, s)

/-- Folding the gate over a list of offer times for one fixed key,
threading the cooldown state. -/
def offerRun (s : CooldownState) (key : String) (window : ℤ) :
    List ℤ → List DispatchResult × CooldownState
  | [] => ([], s)
  | t :: ts =>
      let step := offer s key t window
      let rest := offerRun step.2 key window ts
      (step.1 :: rest.1, rest.2)

/-- A send records the send time for the key. -/
lemma offer_sent_lookup (s : CooldownState) (key : String) (now window : ℤ)
    (h : (offer s key now window).1 = .sent) :
    (offer s key now window).2.lookup key = some now := by
  unfold offer at *
  cases hl : s.lookup key with
  | none => simp [hl]
  | some last =>
      simp only [hl] at h ⊢
      by_cases hw : now - last > window
      · simp [hw]
      · simp [hw] at h

/-- Within the (closed) window after a recorded send the gate suppresses
and leaves the state untouched. -/
lemma offer_suppressed_of_within (s : CooldownState) (key : String)
    (t u window : ℤ) (hl : s.lookup key = some t)
    (hu : u ≤ t + window) :
    offer s key u window = (.suppressed, s) := by
  unfold offer
  rw [hl]
  have : ¬ u - t > window := by
    intro hgt
    have : u > t + window := by linarith
    exact absurd hu (not_le.mpr this)
  simp [this]

/-- A whole run of offers within the closed window is all-suppressed and
leaves the state untouched. -/
lemma offerRun_suppressed_of_within (key : String) (t window : ℤ)
    (ts : List ℤ) :
    ∀ s : CooldownState, s.lookup key = some t →
      (∀ u ∈ ts, u ≤ t + window) →
      offerRun s key window ts = (ts.map (fun _ => .suppressed), s) := by
  induction ts with
  | nil => intro s _ _; rfl
  | cons u ts ih =>
      intro s hl hts
      have hstep : offer s key u window = (.suppressed, s) :=
        offer_suppressed_of_within s key t u window hl
          (hts u (List.mem_cons_self u ts))
      have hrest := ih s hl (fun v hv => hts v (List.mem_cons_of_mem u hv))
      simp [offerRun, hstep, hrest]

/-- An offer strictly after the recorded window is sent and records its
time as the new last-sent entry for the key. -/
lemma offer_sent_after_window (s : CooldownState) (key : String)
    (t window t' : ℤ) (hl : s.lookup key = some t) (ht' : t + window < t') :
    (offer s key t' window).1 = .sent ∧
    (offer s key t' window).2.lookup key = some t' := by
  have hgt : t' - t > window := by linarith
  unfold offer
  rw [hl]
  simp [hgt, List.lookup]

/-- C1, counterexample to the claim as stated: with window 3600, a send at
`t = 0` followed by an offer at exactly `t' = t + window = 3600` — which
the claim says is `Sent` since `t' ≥ t + window` — is in fact `Suppressed`,
because the source condition `now - last_sent > window` is strict. -/
theorem cooldown_boundary_counterexample :
    (offer [] "u_critical_low_moisture" 0 3600).1 = .sent ∧
    (0 : ℤ) + 3600 ≤ 3600 ∧
    (offer (offer [] "u_critical_low_moisture" 0 3600).2
      "u_critical_low_moisture" 3600 3600).1 = .suppressed := by
  decide

/-- C1, amended: if `offer` returns `Sent` at time `t`, every subsequent
offer for the same key at a time `t'` with `t ≤ t' ≤ t + window` returns
`Suppressed` and leaves the state unchanged, and an offer at any
`t' > t + window` returns `Sent` and records `t'` as the new last-sent time
for the key. -/
theorem cooldown_invariant (s : CooldownState) (key : String)
    (t window t' : ℤ) (ts : List ℤ)
    (hsent : (offer s key t window).1 = .sent)
    (hts : ∀ u ∈ ts, t ≤ u ∧ u ≤ t + window)
    (ht' : t + window < t') :
    (offerRun (offer s key t window).2 key window ts).1 =
        ts.map (fun _ => .suppressed) ∧
    (offerRun (offer s key t window).2 key window ts).2 =
        (offer s key t window).2 ∧
    (offer (offer s key t window).2 key t' window).1 = .sent ∧
    (offer (offer s key t window).2 key t' window).2.lookup key = some t' := by
  have hl : (offer s key t window).2.lookup key = some t :=
    offer_sent_lookup s key t window hsent
  have hrun := offerRun_suppressed_of_within key t window ts
    (offer s key t window).2 hl (fun u hu => (hts u hu).2)
  have hsend := offer_sent_after_window (offer s key t window).2 key
    t window t' hl ht'
  exact ⟨by rw [hrun], by rw [hrun], hsend.1, hsend.2⟩

/-- C1 witness: concrete run — send at 0 with a one-hour window, offers at
1800 and at the boundary 3600 are suppressed, an offer at 3601 is sent and
recorded. -/
theorem cooldown_invariant_witness :
    (offerRun (offer [] "k" 0 3600).2 "k" 3600 [1800, 3600]).1 =
        [1800, 3600].map (fun _ => DispatchResult.suppressed) ∧
    (offerRun (offer [] "k" 0 3600).2 "k" 3600 [1800, 3600]).2 =
        (offer [] "k" 0 3600).2 ∧
    (offer (offer [] "k" 0 3600).2 "k" 3601 3600).1 = .sent ∧
    (offer (offer [] "k" 0 3600).2 "k" 3601 3600).2.lookup "k" =
        some 3601 :=
  cooldown_invariant [] "k" 0 3600 3601 [1800, 3600] (by decide)
    (by decide) (by decide)

/-- C2: the deduplication window is a function of the alert's domain alone:
every soil dispatch step on the live path behaves as the generic gate with
a 3600-second window, every soil dispatch step on the diagnostic/test path
(no reachable data store) as the gate with a 300-second window, and every
weather dispatch step as the gate with a 7200-second window — for every
cooldown state, recipient email, alert type and time. -/
theorem domain_windows (s : CooldownState) (email atype : String) (now : ℤ) :
    soil_dispatch_live s email atype now =
        offer s (email ++ "_" ++ atype) now 3600 ∧
    soil_dispatch_test s email atype now =
        offer s (email ++ "_" ++ atype) now 300 ∧
    weather_dispatch s email atype now =
        offer s (email ++ "_" ++ atype) now 7200 :=
  ⟨rfl, rfl, rfl⟩

/- ================================================================
   Condition evaluators
   (Backend/automatic_monitoring.py lines 150-233 and 64-103;
   Backend/weather_monitor.py `check_weather_alerts` lines 418-558)
   ================================================================ -/

/-- An alert record as built by the evaluators: `type`, `severity` and
`message` strings, the triggering `value` (present only on soil alerts) and
the ordered recommendation texts. Emoji prefixes of the source messages
are omitted; numbers inside messages are rendered with `toString`. -/
structure Alert where
  type : String
  severity : String
  message : String
  value : Option ℚ := none
  recommendations : List String
deriving DecidableEq, Repr

/-- A soil reading as assembled in `check_soil_conditions` (the
`timestamp` field, unused by the threshold logic, is omitted). -/
structure SoilReading where
  temperature : ℚ
  moisture : ℚ
  pH : ℚ
  nitrogen : ℚ
  phosphorus : ℚ
  potassium : ℚ
deriving DecidableEq, Repr

/-- The fields of a current-weather record that `check_weather_alerts`
reads (`wind_speed`, `visibility`, `timestamp` and `source` are carried by
the source dicts but never read by the alert logic). `uv_index` is
optional because the source guards it with `weather_data.get('uv_index')`. -/
structure WeatherData where
  temperature : ℚ
  humidity : ℚ
  description : String
  main : String
  uv_index : Option ℚ
deriving DecidableEq, Repr

/-- The soil-sensor environmental context returned by
`get_soil_environmental_data` (weather_monitor.py lines 88-119), reduced to
the two fields `check_weather_alerts` reads. -/
structure SoilContext where
  soil_temperature : ℚ
  soil_moisture : ℚ
deriving DecidableEq, Repr

/-- One forecast period as consumed by the rain branch of
`check_weather_alerts`, reduced to the only field it reads. -/
structure ForecastPeriod where
  precipitation : ℚ
deriving DecidableEq, Repr

/-- Python's `str.lower()`, written over the character list so that it
evaluates by reduction. -/
def strLower (s : String) : String := String.mk (s.toList.map Char.toLower)

/-- Python's `pat in s` substring test on strings, used for
`'rain' in weather_data['description'].lower()`. -/
def strContains (s pat : String) : Bool :=
  s.toList.tails.any (fun suffix => pat.toList.isPrefixOf suffix)

/-- The soil evaluator: the threshold chain of `check_soil_conditions` on
the live path (automatic_monitoring.py lines 150-233), returning the
appended alert list. -/
def soil_alerts (r : SoilReading) : List Alert :=
  (if r.moisture < 20 then
    [{ type := "critical_low_moisture", severity := "high",
       message := "CRITICAL: Soil moisture extremely low at " ++
         toString r.moisture ++ "%",
       value := some r.moisture,
       recommendations :=
         ["Water immediately and deeply", "Check irrigation system",
          "Add water-retaining mulch", "Monitor soil moisture hourly"] }]
  else if r.moisture > 85 then
    [{ type := "critical_high_moisture", severity := "high",
       message := "CRITICAL: Soil waterlogged at " ++
         toString r.moisture ++ "%",
       value := some r.moisture,
       recommendations :=
         ["Stop watering immediately", "Improve drainage",
          "Check for water leaks", "Consider temporary drainage solutions"] }]
  else []) ++
  (if r.temperature > 35 then
    [{ type := "critical_high_soil_temp", severity := "high",
       message := "CRITICAL: Soil overheating at " ++
         toString r.temperature ++ "°C",
       value := some r.temperature,
       recommendations :=
         ["Apply thick mulch immediately", "Increase watering to cool soil",
          "Provide shade over soil area", "Water in early morning"] }]
  else if r.temperature < 5 then
    [{ type := "critical_low_soil_temp", severity := "medium",
       message := "WARNING: Soil too cold at " ++
         toString r.temperature ++ "°C",
       value := some r.temperature,
       recommendations :=
         ["Cover plants with frost protection", "Use mulch for insulation",
          "Consider heating mats for seedlings", "Monitor for frost damage"] }]
  else []) ++
  (if r.pH < 5 then
    [{ type := "critical_acidic_soil", severity := "medium",
       message := "WARNING: Soil too acidic at pH " ++ toString r.pH,
       value := some r.pH,
       recommendations :=
         ["Add lime to raise pH", "Test soil pH weekly",
          "Consider pH buffer solutions", "Choose acid-tolerant plants"] }]
  else if r.pH > 8.5 then
    [{ type := "critical_alkaline_soil", severity := "medium",
       message := "WARNING: Soil too alkaline at pH " ++ toString r.pH,
       value := some r.pH,
       recommendations :=
         ["Add sulfur to lower pH", "Use acidic fertilizers",
          "Add organic matter", "Test pH regularly"] }]
  else [])

/-- The mock critical soil reading used by the diagnostic path of
`check_soil_conditions` (lines 64-72). -/
def mock_critical_soil : SoilReading :=
  { temperature := 15, moisture := 15, pH := 4.5,
    nitrogen := 0, phosphorus := 0, potassium := 0 }

/-- The alert list built by the diagnostic path of `check_soil_conditions`
(lines 74-103), which tests only the low-moisture and acidic-pH
predicates against the mock reading. -/
def mock_soil_alerts : List Alert :=
  (if mock_critical_soil.moisture < 20 then
    [{ type := "critical_low_moisture", severity := "high",
       message := "CRITICAL: Soil moisture extremely low at " ++
         toString mock_critical_soil.moisture ++ "%",
       value := some mock_critical_soil.moisture,
       recommendations :=
         ["Water immediately and deeply", "Check irrigation system",
          "Add water-retaining mulch", "Monitor soil moisture hourly"] }]
  else []) ++
  (if mock_critical_soil.pH < 5 then
    [{ type := "critical_acidic_soil", severity := "medium",
       message := "WARNING: Soil too acidic at pH " ++
         toString mock_critical_soil.pH,
       value := some mock_critical_soil.pH,
       recommendations :=
         ["Add lime to raise pH", "Test soil pH weekly",
          "Consider pH buffer solutions", "Choose acid-tolerant plants"] }]
  else [])

/-- The weather evaluator `check_weather_alerts` (weather_monitor.py lines
418-558). The ambient data the source fetches during evaluation — the soil
context read from Firestore (line 426) and the forecast fetched inside the
rain branch (line 453) — are passed as explicit arguments. -/
def check_weather_alerts (weather_data : WeatherData)
    (soil_context : Option SoilContext) (forecast : List ForecastPeriod) :
    List Alert :=
  (if weather_data.temperature > 30 ∧
      (weather_data.main = "Clear" ∨ weather_data.main = "Sun") then
    let base :=
      ["Provide shade for sensitive plants", "Increase watering frequency",
       "Water early morning or late evening",
       "Mulch around plants to retain moisture"]
    let recommendations :=
      match soil_context with
      | some sc =>
          if sc.soil_moisture < 40 then
            base ++
              ["Soil moisture is low (" ++ toString sc.soil_moisture ++
                 "%) - increase irrigation immediately",
               "Consider drip irrigation for consistent moisture"]
          else base
      | none => base
    [{ type := "extreme_heat",
       severity := if weather_data.temperature > 35 then "high" else "medium",
       message := "Extreme heat warning! Temperature: " ++
         toString weather_data.temperature ++
         "°C. Protect your plants from intense sunlight.",
       recommendations := recommendations }]
  else []) ++
  (if weather_data.main = "Rain" ∨ weather_data.main = "Thunderstorm" ∨
      strContains (strLower weather_data.description) "rain" then
    let heavy_rain_hours :=
      (forecast.filter (fun f => f.precipitation > 5)).length
    let base :=
      ["Move potted plants under cover",
       "Ensure proper drainage in garden beds", "Reduce watering schedule",
       "Secure plant supports and stakes"]
    let recommendations :=
      match soil_context with
      | some sc =>
          if sc.soil_moisture > 70 then
            base ++
              ["Soil is already saturated (" ++ toString sc.soil_moisture ++
                 "%) - improve drainage urgently",
               "Consider raised beds or adding sand to heavy soils"]
          else base
      | none => base
    [{ type := "rain_warning",
       severity := if heavy_rain_hours > 3 then "high" else "medium",
       message := "Rain expected! Current conditions: " ++
         weather_data.description ++ ". Heavy rain forecasted for " ++
         toString heavy_rain_hours ++ " periods.",
       recommendations := recommendations }]
  else []) ++
  (match weather_data.uv_index with
   | none => []
   | some u =>
       -- `u ≠ 0` mirrors the Python truthiness guard
       -- `if weather_data.get('uv_index') and weather_data['uv_index'] > 8`
       if u ≠ 0 ∧ u > 8 then
         [{ type := "high_uv", severity := "medium",
            message := "High UV index (" ++ toString u ++
              ")! Plants may need protection from intense sunlight.",
            recommendations :=
              ["Use shade cloth for delicate plants", "Water more frequently",
               "Consider afternoon shade"] }]
       else []) ++
  (if weather_data.humidity < 30 ∧ weather_data.temperature > 25 then
    let base :=
      ["Increase humidity around plants", "Water more frequently",
       "Group plants together", "Use humidity trays"]
    let recommendations :=
      match soil_context with
      | some sc =>
          if sc.soil_moisture < 30 then
            ("Critical: Both air and soil are very dry! Soil moisture: " ++
               toString sc.soil_moisture ++ "%") :: base
          else if sc.soil_moisture < 50 then
            ("Soil moisture is getting low: " ++
               toString sc.soil_moisture ++ "%") :: base
          else base
      | none => base
    [{ type := "dry_conditions",
       severity :=
         match soil_context with
         | some sc => if sc.soil_moisture < 30 then "high" else "medium"
         | none => "medium",
       message := "Very dry conditions! Humidity: " ++
         toString weather_data.humidity ++ "%, Temperature: " ++
         toString weather_data.temperature ++ "°C",
       recommendations := recommendations }]
  else []) ++
  (match soil_context with
   | none => []
   | some sc =>
       (if sc.soil_temperature > 28 then
         [{ type := "soil_overheating", severity := "high",
            message := "Soil overheating! Soil temperature: " ++
              toString sc.soil_temperature ++ "°C. Root damage possible.",
            recommendations :=
              ["Apply thick mulch immediately",
               "Increase watering to cool soil",
               "Provide shade over soil area",
               "Water in early morning to pre-cool soil"] }]
       else []) ++
       (if sc.soil_moisture < 20 then
         [{ type := "soil_drought", severity := "high",
            message := "Soil drought emergency! Moisture: " ++
              toString sc.soil_moisture ++ "%. Plants in distress.",
            recommendations :=
              ["Water immediately and deeply", "Check irrigation system",
               "Add water-retaining mulch",
               "Consider emergency watering schedule"] }]
       else if sc.soil_moisture > 85 then
         [{ type := "soil_waterlogged", severity := "high",
            message := "Soil waterlogged! Moisture: " ++
              toString sc.soil_moisture ++ "%. Root rot risk.",
            recommendations :=
              ["Stop watering immediately", "Improve drainage",
               "Check for blocked drains",
               "Consider temporary raised planting"] }]
       else []))

/-- C4: the soil reading with moisture 15, temperature 15 and pH 4.5 yields
exactly the two alerts `critical_low_moisture` (high) then
`critical_acidic_soil` (medium), the first of which recommends
"Water immediately and deeply"; the diagnostic path builds the same list
for its mock reading. -/
theorem soil_scenario :
    (soil_alerts mock_critical_soil).map (fun a => (a.type, a.severity)) =
      [("critical_low_moisture", "high"), ("critical_acidic_soil", "medium")] ∧
    "Water immediately and deeply" ∈
      ((soil_alerts mock_critical_soil).map Alert.recommendations).headI ∧
    mock_soil_alerts = soil_alerts mock_critical_soil := by
  refine ⟨?_, ?_, ?_⟩ <;>
    norm_num [soil_alerts, mock_soil_alerts, mock_critical_soil]

/-- C3: the weather reading with temperature 32, humidity 20, main "Clear"
and uv_index 9, evaluated against a soil context with moisture 25 (and a
nominal soil temperature of 20), yields exactly three alerts:
`extreme_heat` (medium, since 32 is not above 35), `high_uv` (medium) and
`dry_conditions` (high, since soil moisture 25 is below 30). -/
theorem weather_scenario :
    (check_weather_alerts
        { temperature := 32, humidity := 20, description := "clear sky",
          main := "Clear", uv_index := some 9 }
        (some { soil_temperature := 20, soil_moisture := 25 }) []).map
      (fun a => (a.type, a.severity)) =
      [("extreme_heat", "medium"), ("high_uv", "medium"),
       ("dry_conditions", "high")] := by
  norm_num [check_weather_alerts]
  decide

/-- C5, counterexample to the claim as stated: evaluating the same rain
reading twice yields different alert sequences when the forecast fetched
inside the rain branch differs — with no heavy-rain periods the single
`rain_warning` has severity medium, with four periods above the
precipitation threshold it has severity high. The weather evaluator is
therefore not a function of the reading alone. -/
theorem weather_evaluator_forecast_sensitivity :
    (check_weather_alerts
        { temperature := 20, humidity := 50, description := "moderate rain",
          main := "Rain", uv_index := some 3 } none []).map
      (fun a => a.severity) = ["medium"] ∧
    (check_weather_alerts
        { temperature := 20, humidity := 50, description := "moderate rain",
          main := "Rain", uv_index := some 3 } none
        (List.replicate 4 { precipitation := 10 })).map
      (fun a => a.severity) = ["high"] ∧
    check_weather_alerts
        { temperature := 20, humidity := 50, description := "moderate rain",
          main := "Rain", uv_index := some 3 } none [] ≠
      check_weather_alerts
        { temperature := 20, humidity := 50, description := "moderate rain",
          main := "Rain", uv_index := some 3 } none
        (List.replicate 4 { precipitation := 10 }) := by
  refine ⟨?_, ?_, ?_⟩ <;> norm_num [check_weather_alerts]
  exact fun h => absurd h (by decide)

/-- C5, amended: each evaluator is deterministic as a function of its full
input — the soil evaluator of the reading alone, the weather evaluator of
the reading together with the ambient soil-context snapshot and the
fetched forecast: equal inputs give identical alert sequences (same types,
severities and order). -/
theorem evaluator_determinism (w₁ w₂ : WeatherData)
    (c₁ c₂ : Option SoilContext) (f₁ f₂ : List ForecastPeriod)
    (s₁ s₂ : SoilReading) (hw : w₁ = w₂) (hc : c₁ = c₂) (hf : f₁ = f₂)
    (hs : s₁ = s₂) :
    soil_alerts s₁ = soil_alerts s₂ ∧
    check_weather_alerts w₁ c₁ f₁ = check_weather_alerts w₂ c₂ f₂ ∧
    (soil_alerts s₁).map (fun a => (a.type, a.severity)) =
      (soil_alerts s₂).map (fun a => (a.type, a.severity)) ∧
    (check_weather_alerts w₁ c₁ f₁).map (fun a => (a.type, a.severity)) =
      (check_weather_alerts w₂ c₂ f₂).map (fun a => (a.type, a.severity)) := by
  subst hw hc hf hs
  exact ⟨rfl, rfl, rfl, rfl⟩

/-- C5 witness: the amended determinism theorem applied to a concrete
reading, context and forecast. -/
theorem evaluator_determinism_witness :
    soil_alerts mock_critical_soil = soil_alerts mock_critical_soil ∧
    check_weather_alerts
        { temperature := 32, humidity := 20, description := "clear sky",
          main := "Clear", uv_index := some 9 } none [] =
      check_weather_alerts
        { temperature := 32, humidity := 20, description := "clear sky",
          main := "Clear", uv_index := some 9 } none [] ∧
    (soil_alerts mock_critical_soil).map (fun a => (a.type, a.severity)) =
      (soil_alerts mock_critical_soil).map (fun a => (a.type, a.severity)) ∧
    (check_weather_alerts
        { temperature := 32, humidity := 20, description := "clear sky",
          main := "Clear", uv_index := some 9 } none []).map
      (fun a => (a.type, a.severity)) =
      (check_weather_alerts
        { temperature := 32, humidity := 20, description := "clear sky",
          main := "Clear", uv_index := some 9 } none []).map
      (fun a => (a.type, a.severity)) :=
  evaluator_determinism
    { temperature := 32, humidity := 20, description := "clear sky",
      main := "Clear", uv_index := some 9 }
    { temperature := 32, humidity := 20, description := "clear sky",
      main := "Clear", uv_index := some 9 }
    none none [] [] mock_critical_soil mock_critical_soil rfl rfl rfl rfl

/- ================================================================
   Monitoring scheduler
   (Backend/automatic_monitoring.py `monitoring_loop` lines 422-443,
   `start_monitoring` lines 445-458, `stop_monitoring` lines 460-463)
   ================================================================ -/

/-- Outcome of a piece of Python code that either returns normally or
raises an exception carrying a message. -/
abbrev PyOutcome := Except String Unit

/-- A domain check wrapped in its own `try/except` block, as in the live
path of `check_soil_conditions` (lines 123-256) and the whole of
`check_weather_conditions` (lines 260-287): an exception from the body is
logged and swallowed, so the wrapped check always returns normally. -/
def guardedCheck (body : PyOutcome) : PyOutcome :=
  match body with
  | .ok u => .ok u
  | .error _ => .ok ()

/-- What one iteration of `monitoring_loop` does, observably: which domain
checks ran, how long the closing `time.sleep` waits, and whether the loop
keeps running afterwards. -/
structure IterOutcome where
  soilChecked : Bool
  weatherChecked : Bool
  sleep : ℤ
  loopContinues : Bool
deriving DecidableEq, Repr

/-- The `check_interval` attribute set in `__init__` (line 27): 300
seconds. -/
def check_interval : ℤ := 300

/-- The soil check as a whole (`check_soil_conditions`, lines 59-256):
on the live path (reachable data store) its body runs inside `try/except`
(lines 123-256), but the diagnostic path taken when no data store is
reachable (lines 61-121) has no handler of its own, so an exception there
escapes to the caller. -/
def check_soil_run (dbAvailable : Bool) (soilBody : PyOutcome) : PyOutcome :=
  if dbAvailable then guardedCheck soilBody else soilBody

/-- One iteration of `monitoring_loop` (lines 426-443): inside the
top-level `try`, run the soil check, then the weather check (whose whole
body is guarded, lines 260-287), then sleep `check_interval`; the
top-level `except` catches anything that escapes a check — logs it and
sleeps 60 seconds instead, after which the `while self.monitoring_active`
loop continues. `topFault` models an exception raised by the statements of
the `try` block other than the two checks. -/
def monitoring_iteration (dbAvailable : Bool)
    (soilBody weatherBody : PyOutcome) (topFault : Option String) :
    IterOutcome :=
  match check_soil_run dbAvailable soilBody with
  | .error _ => { soilChecked := true, weatherChecked := false,
                  sleep := 60, loopContinues := true }
  | .ok _ =>
      match guardedCheck weatherBody with
      | .error _ => { soilChecked := true, weatherChecked := true,
                      sleep := 60, loopContinues := true }
      | .ok _ =>
          match topFault with
          | some _ => { soilChecked := true, weatherChecked := true,
                        sleep := 60, loopContinues := true }
          | none => { soilChecked := true, weatherChecked := true,
                      sleep := check_interval, loopContinues := true }

/-- C8, counterexample to the claim as stated: in diagnostic mode (no
reachable data store) the soil check body runs with no handler of its own,
so an exception inside it reaches the loop's top-level handler and the
weather check is skipped for that iteration (with the 60-second backoff),
contradicting "without skipping the other domain's check". -/
theorem scheduler_diagnostic_fault_counterexample :
    monitoring_iteration false (.error "sensor failure") (.ok ()) none =
      { soilChecked := true, weatherChecked := false,
        sleep := 60, loopContinues := true } := rfl

/-- C8, amended: in every iteration the soil check runs and the loop
continues; and whenever the soil check cannot escape — on the live path,
where its body is guarded by its own handler, or because its body returns
normally — an exception raised inside either domain check is caught and
logged without aborting the loop and without skipping the other domain,
and the iteration sleeps 60 seconds exactly when an unexpected top-level
failure occurred, the full `check_interval` otherwise. (An exception in
the unguarded diagnostic soil path instead skips the weather check and
takes the 60-second backoff.) -/
theorem scheduler_fault_isolation (dbAvailable : Bool)
    (soilBody weatherBody : PyOutcome) (topFault : Option String)
    (hguard : dbAvailable = true ∨ soilBody = .ok ()) :
    (monitoring_iteration dbAvailable soilBody weatherBody
        topFault).soilChecked = true ∧
    (monitoring_iteration dbAvailable soilBody weatherBody
        topFault).weatherChecked = true ∧
    (monitoring_iteration dbAvailable soilBody weatherBody
        topFault).loopContinues = true ∧
    (monitoring_iteration dbAvailable soilBody weatherBody topFault).sleep =
      (if topFault.isSome then 60 else check_interval) := by
  rcases hguard with h | h
  · subst h
    cases soilBody <;> cases weatherBody <;> cases topFault <;>
      simp [monitoring_iteration, check_soil_run, guardedCheck]
  · subst h
    cases dbAvailable <;> cases weatherBody <;> cases topFault <;>
      simp [monitoring_iteration, check_soil_run, guardedCheck]

/-- C8 witness: a live-path iteration whose soil body and weather body
both raise still checks both domains, keeps the loop alive, and sleeps the
full interval. -/
theorem scheduler_fault_isolation_witness :
    (monitoring_iteration true (.error "soil boom") (.error "weather boom")
        none).soilChecked = true ∧
    (monitoring_iteration true (.error "soil boom") (.error "weather boom")
        none).weatherChecked = true ∧
    (monitoring_iteration true (.error "soil boom") (.error "weather boom")
        none).loopContinues = true ∧
    (monitoring_iteration true (.error "soil boom") (.error "weather boom")
        none).sleep =
      (if (none : Option String).isSome then 60 else check_interval) :=
  scheduler_fault_isolation true (.error "soil boom") (.error "weather boom")
    none (Or.inl rfl)

/-- The monitoring lifecycle state touched by `start_monitoring`: the
`monitoring_active` flag and, to count spawned loops, the number of
monitoring threads started so far. -/
structure MonitorState where
  monitoring_active : Bool
  threads_started : ℕ
deriving DecidableEq, Repr

/-- `start_monitoring` (lines 445-458): if already active, report success
without touching anything; otherwise set the flag, spawn one background
monitoring thread, and report success. -/
def start_monitoring (s : MonitorState) : Bool × MonitorState :=
  if s.monitoring_active then (true, s)
  else (true, { monitoring_active := true,
                threads_started := s.threads_started + 1 })

/-- `stop_monitoring` (lines 460-463): clear the flag. -/
def stop_monitoring (s : MonitorState) : MonitorState :=
  { s with monitoring_active := false }

/-- C9: `start_monitoring` is idempotent — from any state, a second call
without an intervening stop reports success, leaves `monitoring_active`
true, and changes nothing at all, in particular it spawns no second
monitoring loop. -/
theorem start_monitoring_idempotent (s : MonitorState) :
    (start_monitoring (start_monitoring s).2).1 = true ∧
    ((start_monitoring (start_monitoring s).2).2).monitoring_active = true ∧
    (start_monitoring (start_monitoring s).2).2 = (start_monitoring s).2 ∧
    ((start_monitoring (start_monitoring s).2).2).threads_started =
      ((start_monitoring s).2).threads_started := by
  by_cases h : s.monitoring_active <;> simp [start_monitoring, h]

/- ================================================================
   Landmark motion scorer
   (Backend/motion_detect_pose.py, `calculate_motion` lines 43-79)
   ================================================================ -/

/-- A single tracked keypoint in normalized 3D coordinates. Pose landmarks
carry a `visibility` confidence; hand landmarks do not (the source tests
`hasattr(curr, 'visibility')`), hence the `Option`. Coordinates are reals
standing for the source floats. -/
structure Landmark where
  x : ℝ
  y : ℝ
  z : ℝ
  visibility : Option ℝ

/-- The `MIN_CONFIDENCE` constant (motion_detect_pose.py line 10). -/
noncomputable def MIN_CONFIDENCE : ℝ := 0.3

/-- The `DEFAULT_THRESHOLD` motion constant (motion_detect_pose.py
line 9). -/
noncomputable def DEFAULT_THRESHOLD : ℝ := 0.001

/-- Euclidean distance in 3D between two landmarks, as computed inside
both loops of `calculate_motion` (lines 61 and 73). -/
noncomputable def dist3 (curr prev : Landmark) : ℝ :=
  Real.sqrt ((curr.x - prev.x) ^ 2 + (curr.y - prev.y) ^ 2 +
    (curr.z - prev.z) ^ 2)

/-- The `joint_names` dict of the pose branch (lines 52-57), as a partial
map from landmark index to symbolic name. -/
def pose_joint_names : ℕ → Option String := fun i =>
  match i with
  | 0 => some "nose"
  | 11 => some "left_shoulder"
  | 12 => some "right_shoulder"
  | 13 => some "left_elbow"
  | 14 => some "right_elbow"
  | 15 => some "left_wrist"
  | 16 => some "right_wrist"
  | 23 => some "left_hip"
  | 24 => some "right_hip"
  | 25 => some "left_knee"
  | 26 => some "right_knee"
  | 27 => some "left_ankle"
  | 28 => some "right_ankle"
  | _ => none

/-- The `finger_names` dict of the hands branch (lines 67-70). -/
def finger_names : ℕ → Option String := fun i =>
  match i with
  | 0 => some "wrist"
  | 4 => some "thumb_tip"
  | 8 => some "index_tip"
  | 12 => some "middle_tip"
  | 16 => some "ring_tip"
  | 20 => some "pinky_tip"
  | _ => none

/-- The per-landmark comparison guard of the pose branch (line 60):
`hasattr(curr, 'visibility') and curr.visibility > MIN_CONFIDENCE`. -/
noncomputable def visPassesB (l : Landmark) : Bool :=
  match l.visibility with
  | some v => decide (v > MIN_CONFIDENCE)
  | none => false

/-- The common shape of the two `enumerate(zip(...))` loops of
`calculate_motion` (lines 59-64 and 72-76): walk the zipped landmark
pairs with their index, skipping a pair when the visibility guard is in
force and fails (`checkVis = true` for the pose branch, `false` for the
hands branch), appending the pair's 3D distance to `distances` and, when
that distance exceeds `DEFAULT_THRESHOLD` and the index has a symbolic
name, the name to `active_joints`. -/
noncomputable def motionScan (checkVis : Bool) (names : ℕ → Option String) :
    ℕ → List (Landmark × Landmark) → List ℝ × List String
  | _, [] => ([], [])
  | i, cp :: rest =>
      let res := motionScan checkVis names (i + 1) rest
      if !checkVis || visPassesB cp.1 then
        let d := dist3 cp.1 cp.2
        (d :: res.1,
         match names i with
         | some nm => if d > DEFAULT_THRESHOLD then nm :: res.2 else res.2
         | none => res.2)
      else res

/-- The motion scorer `calculate_motion` (lines 43-79): absent landmarks
on either side short-circuit to `(0.0, [])`; otherwise the branch for the
`landmark_type` string scans the zipped pairs, and the magnitude is
`np.mean(distances) if distances else 0.0`. -/
noncomputable def calculate_motion
    (current_landmarks prev_landmarks : Option (List Landmark))
    (landmark_type : String) : ℝ × List String :=
  match prev_landmarks, current_landmarks with
  | none, _ => (0, [])
  | _, none => (0, [])
  | some prev, some curr =>
      let scanned :=
        if landmark_type = "pose" then
          motionScan true pose_joint_names 0 (curr.zip prev)
        else if landmark_type = "hands" then
          motionScan false finger_names 0 (curr.zip prev)
        else ([], [])
      (if scanned.1.isEmpty then 0
       else scanned.1.sum / (scanned.1.length : ℝ), scanned.2)

/-- Modelled from the spec: the landmark pairs that are compared — for the
visibility-guarded (pose) branch only those whose current landmark has a
visibility above the minimum-confidence constant, otherwise all pairs. -/
noncomputable def comparedPairs :
    Bool → List (Landmark × Landmark) → List (Landmark × Landmark)
  | true, pairs => pairs.filter (fun cp => visPassesB cp.1)
  | false, pairs => pairs

/-- The distance of a landmark to itself is zero. -/
lemma dist3_self (l : Landmark) : dist3 l l = 0 := by
  simp [dist3]

/-- The distance list built by the scan is the 3D distances of exactly the
compared pairs, in order. -/
lemma motionScan_distances (checkVis : Bool) (names : ℕ → Option String) :
    ∀ (i : ℕ) (pairs : List (Landmark × Landmark)),
      (motionScan checkVis names i pairs).1 =
        (comparedPairs checkVis pairs).map (fun cp => dist3 cp.1 cp.2) := by
  intro i pairs
  induction pairs generalizing i with
  | nil => cases checkVis <;> simp [motionScan, comparedPairs]
  | cons cp rest ih =>
      cases checkVis with
      | false => simp [motionScan, comparedPairs, ih]
      | true =>
          by_cases hv : visPassesB cp.1 = true
          · simp [motionScan, comparedPairs, hv, ih (i + 1)]
          · simp only [Bool.not_eq_true] at hv
            simp [motionScan, comparedPairs, hv, ih (i + 1)]

/-- A name is collected by the scan from starting index `i` iff some
indexed pair (indices counted from `i`) passes the comparison guard, moves
beyond the threshold, and carries that name. -/
lemma motionScan_active_mem (checkVis : Bool) (names : ℕ → Option String) :
    ∀ (i : ℕ) (pairs : List (Landmark × Landmark)) (nm : String),
      nm ∈ (motionScan checkVis names i pairs).2 ↔
        ∃ x ∈ pairs.enumFrom i, (!checkVis || visPassesB x.2.1) = true ∧
          dist3 x.2.1 x.2.2 > DEFAULT_THRESHOLD ∧ names x.1 = some nm := by
  intro i pairs nm
  induction pairs generalizing i with
  | nil => simp [motionScan]
  | cons cp rest ih =>
      by_cases hc : (!checkVis || visPassesB cp.1) = true
      · cases hn : names i with
        | none =>
            simp [motionScan, List.enumFrom, hc, hn, ih (i + 1)]
        | some nm' =>
            by_cases hd : dist3 cp.1 cp.2 > DEFAULT_THRESHOLD
            · have hcp : checkVis = false ∨ visPassesB cp.1 = true := by
                cases checkVis <;> simp_all
              simp [motionScan, List.enumFrom, hc, hn, hd, ih (i + 1),
                hcp, @eq_comm String nm']
            · simp [motionScan, List.enumFrom, hc, hn, hd, ih (i + 1)]
      · have h1 : checkVis = true := by
          cases checkVis <;> simp_all
        have h2 : visPassesB cp.1 = false := by
          cases hvp : visPassesB cp.1 <;> simp_all
        subst h1
        simp [motionScan, List.enumFrom, h2, ih (i + 1)]

/-- Zipping a list with itself pairs each element with itself. -/
lemma zip_self_mem {α : Type} (L : List α) :
    ∀ x ∈ L.zip L, x.1 = x.2 := by
  induction L with
  | nil => intro x hx; cases hx
  | cons a L ih =>
      intro x hx
      rcases List.mem_cons.mp hx with h | h
      · rw [h]
      · exact ih x h

/-- Scanning a landmark list zipped with itself yields distances summing
to zero and no active joints. -/
lemma motionScan_self_zip (checkVis : Bool) (names : ℕ → Option String)
    (L : List Landmark) :
    (motionScan checkVis names 0 (L.zip L)).1.sum = 0 ∧
    (motionScan checkVis names 0 (L.zip L)).2 = [] := by
  constructor
  · rw [motionScan_distances]
    apply List.sum_eq_zero
    intro d hd
    rcases List.mem_map.mp hd with ⟨cp, hcp, rfl⟩
    have hmem : cp ∈ L.zip L := by
      cases checkVis with
      | true => exact List.mem_of_mem_filter hcp
      | false => exact hcp
    rw [zip_self_mem L cp hmem, dist3_self]
  · rw [List.eq_nil_iff_forall_not_mem]
    intro nm hnm
    rw [motionScan_active_mem] at hnm
    rcases hnm with ⟨x, hx, -, hgt, -⟩
    have hx2 : x.2 ∈ L.zip L := List.snd_mem_of_mem_enumFrom hx
    rw [zip_self_mem L x.2 hx2, dist3_self] at hgt
    exact absurd hgt (by norm_num [DEFAULT_THRESHOLD])

/-- Unfolding `calculate_motion` on the pose branch. -/
lemma calculate_motion_pose (curr prev : List Landmark) :
    calculate_motion (some curr) (some prev) "pose" =
      ((if (motionScan true pose_joint_names 0 (curr.zip prev)).1.isEmpty
          then 0
          else (motionScan true pose_joint_names 0 (curr.zip prev)).1.sum /
            ((motionScan true pose_joint_names 0 (curr.zip prev)).1.length :
              ℝ)),
       (motionScan true pose_joint_names 0 (curr.zip prev)).2) := rfl

/-- Unfolding `calculate_motion` on the hands branch. -/
lemma calculate_motion_hands (curr prev : List Landmark) :
    calculate_motion (some curr) (some prev) "hands" =
      ((if (motionScan false finger_names 0 (curr.zip prev)).1.isEmpty
          then 0
          else (motionScan false finger_names 0 (curr.zip prev)).1.sum /
            ((motionScan false finger_names 0 (curr.zip prev)).1.length :
              ℝ)),
       (motionScan false finger_names 0 (curr.zip prev)).2) := rfl

/-- C6: for every landmark list L and every landmark-type string, scoring
with an absent previous frame returns magnitude 0 and no active joints
(no alarm on first sighting), and scoring L against itself also returns
magnitude 0 and no active joints. -/
theorem motion_first_sighting_and_self (L : List Landmark) (kind : String) :
    calculate_motion (some L) none kind = (0, []) ∧
    calculate_motion (some L) (some L) kind = (0, []) := by
  refine ⟨rfl, ?_⟩
  by_cases hp : kind = "pose"
  · subst hp
    obtain ⟨hs, ha⟩ := motionScan_self_zip true pose_joint_names L
    rw [calculate_motion_pose, hs, ha]
    simp [zero_div]
  · by_cases hh : kind = "hands"
    · subst hh
      obtain ⟨hs, ha⟩ := motionScan_self_zip false finger_names L
      rw [calculate_motion_hands, hs, ha]
      simp [zero_div]
    · simp [calculate_motion, hp, hh]

/-- C10: scoring with an absent current landmark list returns magnitude 0
and no active joints for every previous value and every landmark-type
string — a missing current frame is handled like a first sighting rather
than failing. -/
theorem motion_total_in_current (prev : Option (List Landmark))
    (kind : String) :
    calculate_motion none prev kind = (0, []) := by
  cases prev <;> rfl

/-- C7: for every pair of landmark lists, the pose and hands magnitudes
are the arithmetic mean of the 3D distances over exactly the compared
pairs (0 when none are comparable) — the pose branch comparing only
landmarks whose visibility exceeds the minimum-confidence constant, the
hands branch comparing all pairs — and a symbolic joint name is active iff
some compared indexed pair moves beyond the fixed threshold and its index
carries that name in the curated name table of its branch. -/
theorem motion_score_characterization (curr prev : List Landmark) :
    (calculate_motion (some curr) (some prev) "pose").1 =
      (if (comparedPairs true (curr.zip prev)).isEmpty then 0
       else ((comparedPairs true (curr.zip prev)).map
           (fun cp => dist3 cp.1 cp.2)).sum /
         ((comparedPairs true (curr.zip prev)).length : ℝ)) ∧
    (calculate_motion (some curr) (some prev) "hands").1 =
      (if (comparedPairs false (curr.zip prev)).isEmpty then 0
       else ((comparedPairs false (curr.zip prev)).map
           (fun cp => dist3 cp.1 cp.2)).sum /
         ((comparedPairs false (curr.zip prev)).length : ℝ)) ∧
    (∀ nm, nm ∈ (calculate_motion (some curr) (some prev) "pose").2 ↔
      ∃ x ∈ (curr.zip prev).enum, visPassesB x.2.1 = true ∧
        dist3 x.2.1 x.2.2 > DEFAULT_THRESHOLD ∧
        pose_joint_names x.1 = some nm) ∧
    (∀ nm, nm ∈ (calculate_motion (some curr) (some prev) "hands").2 ↔
      ∃ x ∈ (curr.zip prev).enum,
        dist3 x.2.1 x.2.2 > DEFAULT_THRESHOLD ∧
        finger_names x.1 = some nm) := by
  refine ⟨?_, ?_, ?_, ?_⟩
  · rw [calculate_motion_pose]
    rw [motionScan_distances true pose_joint_names 0 (curr.zip prev)]
    cases h : comparedPairs true (curr.zip prev) with
    | nil => simp
    | cons a tl => simp
  · rw [calculate_motion_hands]
    rw [motionScan_distances false finger_names 0 (curr.zip prev)]
    cases h : comparedPairs false (curr.zip prev) with
    | nil => simp
    | cons a tl => simp
  · intro nm
    rw [calculate_motion_pose]
    simpa [List.enum] using
      motionScan_active_mem true pose_joint_names 0 (curr.zip prev) nm
  · intro nm
    rw [calculate_motion_hands]
    simpa [List.enum] using
      motionScan_active_mem false finger_names 0 (curr.zip prev) nm
